import Mathlib

/-!
Shallow embedding of the ESP32 smart-garden irrigation controller
(`src/cpp.cpp`) and proofs of the specification claims about it.

The sketch has one source file.  Its control logic lives in `loop()`:
every `LOOP_DELAY` milliseconds it reads the DHT temperature/humidity,
maps the raw soil ADC value to a percentage, classifies the water
reservoir level, drives the pump relay with a strict priority rule
(no water overrides everything), blocks for `PUMP_SAFETY_DELAY` after
energizing the pump, updates the display and publishes a CSV telemetry
payload.  The MQTT `callback` updates the moisture threshold from
inbound control messages after validating the parsed integer.

Machine integers (`int`, `long` on ESP32 are 32-bit) never approach
their bounds on the values this program manipulates (ADC readings are
0..4095, percentages 0..100), so they are embedded as `Int`; the C++
truncated division used by Arduino's `map` is embedded as `Int.tdiv`.
`millis()` is an unsigned monotonic millisecond counter; it is embedded
as `Nat` (the 32-bit wrap after 49.7 days is outside every claim).
`float` sensor values are embedded as `Option ℚ`, `none` standing for
the NaN that `DHT::readTemperature`/`readHumidity` return on failure.
-/

namespace Greenhouse

/-- Source constant `const int DRY_VAL = 4095;` — raw soil ADC value of
totally dry soil. -/
def DRY_VAL : Int := 4095

/-- Source constant `const int WET_VAL = 1200;` — raw soil ADC value of
totally wet soil. -/
def WET_VAL : Int := 1200

/-- Source constant `const int WATER_SENSOR_THRESHOLD = 1000;`. -/
def WATER_SENSOR_THRESHOLD : Int := 1000

/-- Source constant `const bool INVERT_WATER_LOGIC = false;`. -/
def INVERT_WATER_LOGIC : Bool := false

/-- Source constant `const int LOOP_DELAY = 2000;` — poll interval in
milliseconds. -/
def LOOP_DELAY : Nat := 2000

/-- Source constant `const int PUMP_SAFETY_DELAY = 500;` — blocking
delay after pump-on. -/
def PUMP_SAFETY_DELAY : Nat := 500

/-- Source macro `CONTROL_TOPIC` — the inbound control topic. -/
def CONTROL_TOPIC : String := "ТВОЙ_AIO_USERNAME/feeds/smartgarden_control"

/-- Source macro `DATA_TOPIC` — the outbound telemetry topic. -/
def DATA_TOPIC : String := "ТВОЙ_AIO_USERNAME/feeds/smartgarden_data"

/-- Arduino's `map(x, in_min, in_max, out_min, out_max)`:
`(x - in_min) * (out_max - out_min) / (in_max - in_min) + out_min`
over C++ `long`, whose `/` truncates toward zero (`Int.tdiv`). -/
def arduinoMap (x inMin inMax outMin outMax : Int) : Int :=
  ((x - inMin) * (outMax - outMin)).tdiv (inMax - inMin) + outMin

/-- Arduino's `constrain(amt, low, high)`:
`(amt)<(low)?(low):((amt)>(high)?(high):(amt))`. -/
def constrain (amt low high : Int) : Int :=
  if amt < low then low else if amt > high then high else amt

/-- Soil percentage as computed each tick (`loop`, lines 131–133):
`soilPct = map(rawSoil, DRY_VAL, WET_VAL, 0, 100); soilPct = constrain(soilPct, 0, 100);`. -/
def soilPctOf (rawSoil : Int) : Int :=
  constrain (arduinoMap rawSoil DRY_VAL WET_VAL 0 100) 0 100

/-- Water gate (`loop`, lines 137–142):
`waterCondition = waterLevelRaw > WATER_SENSOR_THRESHOLD;`
`waterOk = INVERT_WATER_LOGIC ? !waterCondition : waterCondition`
(written as an `if` in the source).  The `invert` flag is kept as an
argument so that both polarities can be stated; the sketch instantiates
it with `INVERT_WATER_LOGIC`. -/
def evaluate (rawLevel : Int) (invert : Bool) : Bool :=
  let condition : Bool := rawLevel > WATER_SENSOR_THRESHOLD
  if invert then !condition else condition

/-- Water gate as the sketch instantiates it. -/
def waterOkOf (rawLevel : Int) : Bool :=
  evaluate rawLevel INVERT_WATER_LOGIC

/-- Pump command. -/
inductive PumpCmd where
  | pumpOn
  | pumpOff
deriving DecidableEq, Repr

/-- The irrigation decision embodied by the `if`/`else if`/`else` chain
of `loop` (lines 144–160): no water forces OFF, else soil below the
threshold turns the pump ON, else OFF. -/
def decidePump (soilPct : Int) (waterOk : Bool) (threshold : Int) : PumpCmd :=
  if !waterOk then .pumpOff
  else if soilPct < threshold then .pumpOn
  else .pumpOff

/-- ASCII whitespace as recognized by C `isspace` (which `atol` skips). -/
def isAsciiSpace (c : Char) : Bool :=
  c = ' ' || c = '\t' || c = '\n' || c = '\x0b' || c = '\x0c' || c = '\r'

/-- Value of the leading run of decimal digits of a character list
(empty run gives 0), as `atol` accumulates it. -/
def digitRunVal (l : List Char) : Nat :=
  (l.takeWhile Char.isDigit).foldl (fun acc c => 10 * acc + (c.toNat - 48)) 0

/-- Drop the single optional `+`/`-` sign `atol` accepts after the
whitespace. -/
def afterSign (l : List Char) : List Char :=
  if l.head? = some '-' ∨ l.head? = some '+' then l.tail else l

/-- Arduino `String::toInt()` calls the C library `atol`: skip leading
whitespace, consume one optional `+`/`-` sign, then the leading run of
decimal digits; no digits yields 0.  (Overflow clamping of `atol` is
irrelevant here: the caller only accepts values in (0,100).) -/
def toInt (s : String) : Int :=
  (if (s.data.dropWhile isAsciiSpace).head? = some '-' then -1 else 1) *
    (digitRunVal (afterSign (s.data.dropWhile isAsciiSpace)) : Int)

/-- The MQTT message handler `callback` (lines 71–84), reduced to its
effect on the only state it writes, `autoWaterThreshold`:
the payload bytes are assembled into `message`; if the topic is the
control topic, `newThreshold = message.toInt()` replaces the threshold
when `newThreshold > 0 && newThreshold < 100`, else nothing changes. -/
def callback (topic payload : String) (autoWaterThreshold : Int) : Int :=
  if topic = CONTROL_TOPIC then
    let newThreshold := toInt payload
    if newThreshold > 0 ∧ newThreshold < 100 then newThreshold
    else autoWaterThreshold
  else autoWaterThreshold

/-- Arduino `String(float value, 1)` — one decimal place, rounded to the
nearest tenth; a NaN input (failed DHT read, embedded `none`) prints as
`"nan"`.  Decimal rounding of ties and signed zero, where the C library
depends on the binary float value, are distinguished by no claim. -/
def fmtFloat1 : Option ℚ → String
  | none => "nan"
  | some v =>
    let n : Int := ⌊v * 10 + 1/2⌋
    (if n < 0 then "-" else "") ++ toString (n.natAbs / 10) ++ "." ++ toString (n.natAbs % 10)

/-- Arduino `String(float value, 0)` — rounded to the nearest integer;
NaN prints as `"nan"`. -/
def fmtFloat0 : Option ℚ → String
  | none => "nan"
  | some v => toString (⌊v + 1/2⌋ : ℤ)

/-- The telemetry payload built in `loop` (line 171):
`String(soilPct) + "," + String(temp, 1) + "," + String(hum, 0) + "," + String(waterOk ? 1 : 0)`. -/
def telemetryPayload (soilPct : Int) (temp hum : Option ℚ) (waterOk : Bool) : String :=
  toString soilPct ++ "," ++ fmtFloat1 temp ++ "," ++ fmtFloat0 hum ++ ","
    ++ (if waterOk then "1" else "0")

/-- Whether a string is the ASCII literal of a number (digits with an
optional sign and decimal point) — what "propagated as a valid number"
means for a telemetry field. -/
def isNumericLit (s : String) : Bool :=
  !s.isEmpty && s.data.all (fun c => c.isDigit || c = '.' || c = '-' || c = '+')

/-- The per-tick inputs `loop` obtains from the outside world:
the two DHT reads (`none` = NaN failure), the two ADC samples, and
whether the MQTT client reports itself connected at publish time. -/
structure Inputs where
  tempRead : Option ℚ
  humRead : Option ℚ
  rawSoil : Int
  rawWater : Int
  connected : Bool

/-- The cross-tick mutable state the claims are about: the threshold
written by `callback`, the `pumpOn` flag, and `lastLoopTime`.
(The globals `temp`, `hum`, `soilPct`, `waterLevelRaw`, `waterOk` are
overwritten before use on every tick and carry no cross-tick content.) -/
structure State where
  autoWaterThreshold : Int
  pumpOn : Bool
  lastLoopTime : Nat

/-- Observable side effects of one pass through `loop`, in program
order: sensor reads, the relay write, the blocking `delay`, the display
update and the MQTT publish. -/
inductive Ev where
  | readTemp
  | readHum
  | readSoil (raw : Int)
  | readWater (raw : Int)
  | relayWrite (high : Bool)
  | delay (ms : Nat)
  | displayUpd
  | publish (topic payload : String)
deriving DecidableEq, Repr

/-- The decision the `if`/`else if`/`else` chain of a tick takes. -/
def tickDecision (st : State) (inp : Inputs) : PumpCmd :=
  decidePump (soilPctOf inp.rawSoil) (waterOkOf inp.rawWater) st.autoWaterThreshold

/-- The body of the `if (millis() - lastLoopTime >= LOOP_DELAY)` block
of `loop` (lines 127–175): read DHT, map and constrain the soil ADC,
classify the water level, drive the relay by the priority rule (with
the blocking safety delay on the ON branch), update the display, and
publish the CSV payload when connected.  Returns the new state and the
event trace in program order. -/
def tick (st : State) (inp : Inputs) : State × List Ev :=
  let soilPct := soilPctOf inp.rawSoil
  let waterOk := waterOkOf inp.rawWater
  let act : Bool × List Ev :=
    if !waterOk then (false, [Ev.relayWrite false])
    else if soilPct < st.autoWaterThreshold then
      (true, [Ev.relayWrite true, Ev.delay PUMP_SAFETY_DELAY])
    else (false, [Ev.relayWrite false])
  let payload := telemetryPayload soilPct inp.tempRead inp.humRead waterOk
  ({ st with pumpOn := act.1 },
   [Ev.readTemp, Ev.readHum, Ev.readSoil inp.rawSoil, Ev.readWater inp.rawWater]
     ++ act.2 ++ [Ev.displayUpd]
     ++ (if inp.connected then [Ev.publish DATA_TOPIC payload] else []))

/-- One pass through `loop` at monotonic time `now` (`millis()`):
the tick body runs only when `now - lastLoopTime ≥ LOOP_DELAY`, and
then `lastLoopTime` is resynchronized to `now` first (line 127).
Returns the new state, the trace, and whether the tick ran. -/
def loopIter (st : State) (now : Nat) (inp : Inputs) : State × List Ev × Bool :=
  if now - st.lastLoopTime ≥ LOOP_DELAY then
    let t := tick { st with lastLoopTime := now } inp
    (t.1, t.2, true)
  else (st, [], false)

/-- An externally visible step of the process: the MQTT client delivers
an inbound message to `callback`, or `loop` runs once at some time.
Any interleaving is allowed — a superset of the real single-threaded
schedules, so an invariant over all step lists covers every reachable
state. -/
inductive Step where
  | inbound (topic payload : String)
  | iter (now : Nat) (inp : Inputs)

/-- Effect of one step on the state. -/
def stepState (st : State) : Step → State
  | .inbound topic payload =>
      { st with autoWaterThreshold := callback topic payload st.autoWaterThreshold }
  | .iter now inp => (loopIter st now inp).1

/-- Globals at boot: `int autoWaterThreshold = 30; unsigned long
lastLoopTime = 0; bool pumpOn = false;`. -/
def initState : State :=
  { autoWaterThreshold := 30, pumpOn := false, lastLoopTime := 0 }

/-- State reached after a sequence of steps from boot. -/
def run (steps : List Step) : State := steps.foldl stepState initState

/-! ## Helper lemmas -/

lemma isAsciiSpace_eq_false_of_isDigit (c : Char) (h : c.isDigit = true) :
    isAsciiSpace c = false := by
  simp only [isAsciiSpace, Bool.or_eq_false_iff, decide_eq_false_iff_not]
  refine ⟨⟨⟨⟨⟨?_, ?_⟩, ?_⟩, ?_⟩, ?_⟩, ?_⟩ <;> rintro rfl <;> exact absurd h (by decide)

lemma ne_sign_of_isDigit (c : Char) (h : c.isDigit = true) : c ≠ '-' ∧ c ≠ '+' := by
  constructor <;> rintro rfl <;> exact absurd h (by decide)

lemma digitRunVal_eq_zero (l : List Char)
    (h : l.head?.all (fun c => !c.isDigit) = true) : digitRunVal l = 0 := by
  cases l with
  | nil => rfl
  | cons c rest =>
    simp only [List.head?_cons, Option.all_some, Bool.not_eq_true'] at h
    simp [digitRunVal, List.takeWhile_cons, h]

lemma takeWhile_digit_append (ds rest : List Char) (h1 : ds.all Char.isDigit = true)
    (h2 : rest.head?.all (fun c => !c.isDigit) = true) :
    (ds ++ rest).takeWhile Char.isDigit = ds := by
  induction ds with
  | nil =>
    cases rest with
    | nil => rfl
    | cons r rs =>
      simp only [List.head?_cons, Option.all_some, Bool.not_eq_true'] at h2
      simp [List.takeWhile_cons, h2]
  | cons d ds ih =>
    simp only [List.all_cons, Bool.and_eq_true] at h1
    simp [List.takeWhile_cons, h1.1, ih h1.2]

/-! ## Claim theorems -/

/-- Claim C1: the irrigation decision follows the strict priority order:
`waterOk = false` forces `PUMP_OFF` whatever the soil percentage,
threshold and current pump state (also at the tick level, for any prior
`pumpOn`); with water available and `soilPct ∈ [0,100]`,
`threshold ∈ (0,100)`, the command is `PUMP_ON` iff
`soilPct < threshold`, and `PUMP_OFF` otherwise. -/
theorem c1_decision_priority :
    (∀ (s t : Int), decidePump s false t = .pumpOff) ∧
    (∀ (st : State) (inp : Inputs), waterOkOf inp.rawWater = false →
      tickDecision st inp = .pumpOff ∧ (tick st inp).1.pumpOn = false) ∧
    (∀ (s t : Int), 0 ≤ s → s ≤ 100 → 0 < t → t < 100 →
      ((decidePump s true t = .pumpOn ↔ s < t) ∧
       (decidePump s true t = .pumpOff ↔ ¬ s < t))) := by
  refine ⟨fun s t => rfl, ?_, ?_⟩
  · intro st inp h
    exact ⟨by simp [tickDecision, decidePump, h], by simp [tick, h]⟩
  · intro s t _ _ _ _
    unfold decidePump
    by_cases hst : s < t <;> simp [hst]

/-- Witness for C1 at concrete inputs. -/
theorem c1_decision_priority_witness :
    decidePump 10 true 30 = .pumpOn ∧ decidePump 80 true 30 = .pumpOff ∧
    tickDecision initState ⟨none, none, 4000, 500, false⟩ = .pumpOff := by
  refine ⟨?_, ?_, ?_⟩
  · exact (c1_decision_priority.2.2 10 30 (by decide) (by decide) (by decide)
      (by decide)).1.mpr (by decide)
  · exact (c1_decision_priority.2.2 80 30 (by decide) (by decide) (by decide)
      (by decide)).2.mpr (by decide)
  · exact (c1_decision_priority.2.1 initState ⟨none, none, 4000, 500, false⟩ (by decide)).1

/-- Claim C2: the control handler updates the threshold exactly when the
topic is the control topic and the parsed payload value lies strictly
in (0,100); `"45"` sets 45, while `"0"`, `"100"`, `"abc"` and messages
on another topic leave the threshold unchanged (and the handler is a
total function — nothing is raised). -/
theorem c2_threshold_validation :
    (∀ (topic payload : String) (t : Int),
      callback topic payload t =
        if topic = CONTROL_TOPIC ∧ 0 < toInt payload ∧ toInt payload < 100
        then toInt payload else t) ∧
    callback CONTROL_TOPIC "45" 30 = 45 ∧
    callback CONTROL_TOPIC "0" 30 = 30 ∧
    callback CONTROL_TOPIC "100" 30 = 30 ∧
    callback CONTROL_TOPIC "abc" 30 = 30 ∧
    (∀ (payload : String) (t : Int), callback DATA_TOPIC payload t = t) := by
  refine ⟨?_, by decide, by decide, by decide, by decide, ?_⟩
  · intro topic payload t
    by_cases h : topic = CONTROL_TOPIC <;> simp [callback, h]
  · intro payload t
    simp [callback, show DATA_TOPIC ≠ CONTROL_TOPIC by decide]

/-- Claim C3: the soil percentage is the Arduino linear map from the
descending raw range `[DRY_VAL, WET_VAL]` to `[0,100]` followed by
clamping: `DRY_VAL ↦ 0`, `WET_VAL ↦ 100`, raw values beyond either
endpoint clamp to the corresponding bound, and the result is always an
integer in `[0,100]`. -/
theorem c3_soil_mapping :
    soilPctOf DRY_VAL = 0 ∧
    soilPctOf WET_VAL = 100 ∧
    (∀ raw : Int, DRY_VAL ≤ raw → soilPctOf raw = 0) ∧
    (∀ raw : Int, raw ≤ WET_VAL → soilPctOf raw = 100) ∧
    (∀ raw : Int, 0 ≤ soilPctOf raw ∧ soilPctOf raw ≤ 100) := by
  refine ⟨by decide, by decide, ?_, ?_, ?_⟩
  · intro raw h
    rw [DRY_VAL] at h
    have key : arduinoMap raw DRY_VAL WET_VAL 0 100 ≤ 0 := by
      unfold arduinoMap DRY_VAL WET_VAL
      rw [show ((1200 : Int) - 4095) = -(2895) from rfl, Int.tdiv_neg]
      have h0 : 0 ≤ ((raw - 4095) * (100 - 0)).tdiv 2895 :=
        Int.tdiv_nonneg (by omega) (by norm_num)
      omega
    unfold soilPctOf constrain
    split <;> omega
  · intro raw h
    rw [WET_VAL] at h
    have key : 100 ≤ arduinoMap raw DRY_VAL WET_VAL 0 100 := by
      unfold arduinoMap DRY_VAL WET_VAL
      rw [show ((1200 : Int) - 4095) = -(2895) from rfl, Int.tdiv_neg, ← Int.neg_tdiv]
      rw [Int.tdiv_eq_ediv (by omega) (by norm_num)]
      have h100 : (100 : Int) ≤ -((raw - 4095) * (100 - 0)) / 2895 := by
        rw [Int.le_ediv_iff_mul_le (by norm_num)]
        omega
      omega
    unfold soilPctOf constrain
    split <;> omega
  · intro raw
    unfold soilPctOf constrain
    split
    · omega
    · split <;> omega

/-- Witness for C3 at concrete inputs beyond both endpoints. -/
theorem c3_soil_mapping_witness :
    soilPctOf 4200 = 0 ∧ soilPctOf 100 = 100 := by
  exact ⟨c3_soil_mapping.2.2.1 4200 (by decide), c3_soil_mapping.2.2.2.1 100 (by decide)⟩

/-- Claim C4: the water gate is `invert ? !(raw > WATER_SENSOR_THRESHOLD)
: (raw > WATER_SENSOR_THRESHOLD)`; for `invert = false` it is a
monotone non-decreasing step function of `raw` crossing at
`WATER_SENSOR_THRESHOLD`, and for every `raw` the inverted result is
the logical complement of the non-inverted one. -/
theorem c4_water_gate_spec :
    (∀ (raw : Int) (invert : Bool),
      evaluate raw invert =
        if invert then !(decide (raw > WATER_SENSOR_THRESHOLD))
        else decide (raw > WATER_SENSOR_THRESHOLD)) ∧
    (∀ r1 r2 : Int, r1 ≤ r2 → evaluate r1 false = true → evaluate r2 false = true) ∧
    (∀ r : Int, r ≤ WATER_SENSOR_THRESHOLD → evaluate r false = false) ∧
    (∀ r : Int, WATER_SENSOR_THRESHOLD < r → evaluate r false = true) ∧
    (∀ r : Int, evaluate r true = !(evaluate r false)) := by
  refine ⟨fun raw invert => rfl, ?_, ?_, ?_, ?_⟩
  · intro r1 r2 h h1
    simp only [evaluate, WATER_SENSOR_THRESHOLD] at h1 ⊢
    simp only [if_neg Bool.false_ne_true, decide_eq_true_eq] at *
    omega
  · intro r h
    simp only [evaluate, WATER_SENSOR_THRESHOLD] at h ⊢
    simp only [if_neg Bool.false_ne_true, decide_eq_false_iff_not] at *
    omega
  · intro r h
    simp only [evaluate, WATER_SENSOR_THRESHOLD] at h ⊢
    simp only [if_neg Bool.false_ne_true, decide_eq_true_eq] at *
    omega
  · intro r
    simp [evaluate]

/-- Witness for C4 at concrete raw levels. -/
theorem c4_water_gate_spec_witness :
    evaluate 2000 false = true ∧ evaluate 800 false = false := by
  exact ⟨c4_water_gate_spec.2.1 1500 2000 (by decide) (by decide),
    c4_water_gate_spec.2.2.1 800 (by decide)⟩

/-- Claim C5: the telemetry payload is the comma-separated ASCII string with
fixed field order soil percentage, temperature (1 decimal), humidity
(0 decimals), water flag (`1`/`0`); at soilPct 42, temperature 23.4,
humidity 55, waterOk true it is exactly `"42,23.4,55,1"`. -/
theorem c5_telemetry_serialization :
    (∀ (s : Int) (temp hum : Option ℚ) (w : Bool),
      telemetryPayload s temp hum w =
        toString s ++ "," ++ fmtFloat1 temp ++ "," ++ fmtFloat0 hum ++ ","
          ++ (if w then "1" else "0")) ∧
    telemetryPayload 42 (some (234/10)) (some 55) true = "42,23.4,55,1" := by
  refine ⟨fun _ _ _ _ => rfl, ?_⟩
  have h1 : (⌊(234/10 : ℚ) * 10 + 1/2⌋ : ℤ) = 234 := by norm_num
  have h2 : (⌊(55 : ℚ) + 1/2⌋ : ℤ) = 55 := by norm_num
  simp only [telemetryPayload, fmtFloat1, fmtFloat0, h1, h2]
  decide

/-- Claim C6: a failed temperature or humidity read (DHT NaN, embedded
`none`) reaches telemetry as the sentinel `"nan"`, which is not the
ASCII literal of a number, and a failed read never feeds the logic that
depends on the reading: the tick's decision and resulting state are
independent of the temperature/humidity read results. -/
theorem c6_invalid_read_sentinel :
    fmtFloat1 none = "nan" ∧
    fmtFloat0 none = "nan" ∧
    isNumericLit "nan" = false ∧
    (∀ (s : Int) (hum : Option ℚ) (w : Bool),
      telemetryPayload s none hum w =
        toString s ++ "," ++ "nan" ++ "," ++ fmtFloat0 hum ++ ","
          ++ (if w then "1" else "0")) ∧
    (∀ (s : Int) (temp : Option ℚ) (w : Bool),
      telemetryPayload s temp none w =
        toString s ++ "," ++ fmtFloat1 temp ++ "," ++ "nan" ++ ","
          ++ (if w then "1" else "0")) ∧
    (∀ (st : State) (inp : Inputs) (t h : Option ℚ),
      tickDecision st { inp with tempRead := t, humRead := h } = tickDecision st inp ∧
      (tick st { inp with tempRead := t, humRead := h }).1 = (tick st inp).1) := by
  exact ⟨rfl, rfl, by decide, fun s hum w => rfl, fun s temp w => rfl,
    fun st inp t h => ⟨rfl, rfl⟩⟩

/-- Characterization of the ON decision of a tick. -/
lemma tickDecision_eq_pumpOn_iff (st : State) (inp : Inputs) :
    tickDecision st inp = .pumpOn ↔
      waterOkOf inp.rawWater = true ∧ soilPctOf inp.rawSoil < st.autoWaterThreshold := by
  unfold tickDecision decidePump
  rcases hw : waterOkOf inp.rawWater <;>
    by_cases hs : soilPctOf inp.rawSoil < st.autoWaterThreshold <;> simp [hw, hs]

/-- Claim C7: a tick whose decision is PUMP_ON drives the relay high
and then blocks for `PUMP_SAFETY_DELAY` before anything further — in
the trace the delay follows the relay write immediately, after all four
sensor reads of the tick (the next reads belong to the next tick) —
and this happens for every prior pump state (the trace never depends on
the stored `pumpOn`); a tick whose decision is PUMP_OFF (including the
no-water override) drives the relay low and its trace contains no delay
at all. -/
theorem c7_actuation_and_delay :
    ∀ (st : State) (inp : Inputs),
      (tickDecision st inp = .pumpOn →
        (tick st inp).1.pumpOn = true ∧
        (tick st inp).2 =
          [Ev.readTemp, Ev.readHum, Ev.readSoil inp.rawSoil, Ev.readWater inp.rawWater,
           Ev.relayWrite true, Ev.delay PUMP_SAFETY_DELAY, Ev.displayUpd]
            ++ (if inp.connected then
                  [Ev.publish DATA_TOPIC
                    (telemetryPayload (soilPctOf inp.rawSoil) inp.tempRead inp.humRead
                      (waterOkOf inp.rawWater))]
                else [])) ∧
      (tickDecision st inp = .pumpOff →
        (tick st inp).1.pumpOn = false ∧
        (tick st inp).2 =
          [Ev.readTemp, Ev.readHum, Ev.readSoil inp.rawSoil, Ev.readWater inp.rawWater,
           Ev.relayWrite false, Ev.displayUpd]
            ++ (if inp.connected then
                  [Ev.publish DATA_TOPIC
                    (telemetryPayload (soilPctOf inp.rawSoil) inp.tempRead inp.humRead
                      (waterOkOf inp.rawWater))]
                else []) ∧
        (∀ ms, Ev.delay ms ∉ (tick st inp).2)) ∧
      (∀ b, (tick { st with pumpOn := b } inp).2 = (tick st inp).2) := by
  intro st inp
  refine ⟨?_, ?_, fun b => rfl⟩
  · intro hon
    obtain ⟨hw, hs⟩ := (tickDecision_eq_pumpOn_iff st inp).mp hon
    exact ⟨by simp [tick, hw, hs], by simp [tick, hw, hs]⟩
  · intro hoff
    have hno : ¬(waterOkOf inp.rawWater = true ∧
        soilPctOf inp.rawSoil < st.autoWaterThreshold) := by
      intro hc
      rw [(tickDecision_eq_pumpOn_iff st inp).mpr hc] at hoff
      exact absurd hoff (by decide)
    rcases hw : waterOkOf inp.rawWater
    · refine ⟨by simp [tick, hw], by simp [tick, hw], ?_⟩
      intro ms
      rcases hc : inp.connected <;> simp [tick, hw, hc]
    · have hs : ¬ soilPctOf inp.rawSoil < st.autoWaterThreshold := fun hs => hno ⟨hw, hs⟩
      refine ⟨by simp [tick, hw, hs], by simp [tick, hw, hs], ?_⟩
      intro ms
      rcases hc : inp.connected <;> simp [tick, hw, hs, hc]

/-- Witness for C7: a concrete watering tick energizes the pump, a
concrete satisfied-moisture tick turns it off. -/
theorem c7_actuation_and_delay_witness :
    (tick initState ⟨none, none, 4000, 2000, false⟩).1.pumpOn = true ∧
    (tick initState ⟨none, none, 2000, 2000, false⟩).1.pumpOn = false := by
  constructor
  · exact ((c7_actuation_and_delay initState ⟨none, none, 4000, 2000, false⟩).1
      (by decide)).1
  · exact ((c7_actuation_and_delay initState ⟨none, none, 2000, 2000, false⟩).2.1
      (by decide)).1

/-- One step of the system keeps the threshold strictly inside (0,100). -/
lemma stepState_threshold (st : State) (s : Step)
    (h0 : 0 < st.autoWaterThreshold) (h1 : st.autoWaterThreshold < 100) :
    0 < (stepState st s).autoWaterThreshold ∧ (stepState st s).autoWaterThreshold < 100 := by
  cases s with
  | inbound topic payload =>
    simp only [stepState]
    by_cases ht : topic = CONTROL_TOPIC <;> simp only [callback, ht, if_true, if_false]
    · split
      · next hr => exact ⟨hr.1, hr.2⟩
      · exact ⟨h0, h1⟩
    · exact ⟨h0, h1⟩
  | iter now inp =>
    simp only [stepState, loopIter]
    split
    · simpa [tick] using ⟨h0, h1⟩
    · exact ⟨h0, h1⟩

/-- Claim C8: the threshold starts at its default 30 and, since every
accepted control update is validated to lie strictly between 0 and 100
and ticks never write it, every state reachable by any interleaving of
inbound messages and loop iterations keeps it strictly in (0,100). -/
theorem c8_threshold_invariant :
    initState.autoWaterThreshold = 30 ∧
    ∀ steps : List Step,
      0 < (run steps).autoWaterThreshold ∧ (run steps).autoWaterThreshold < 100 := by
  refine ⟨rfl, ?_⟩
  have aux : ∀ (steps : List Step) (st : State),
      0 < st.autoWaterThreshold → st.autoWaterThreshold < 100 →
      0 < (steps.foldl stepState st).autoWaterThreshold ∧
        (steps.foldl stepState st).autoWaterThreshold < 100 := by
    intro steps
    induction steps with
    | nil => exact fun st h0 h1 => ⟨h0, h1⟩
    | cons s rest ih =>
      intro st h0 h1
      have h := stepState_threshold st s h0 h1
      exact ih _ h.1 h.2
  intro steps
  exact aux steps initState (by decide) (by decide)

/-- A loop iteration runs the tick body exactly when the monotonic
clock delta reaches the poll interval. -/
lemma loopIter_ran_iff (st : State) (now : Nat) (inp : Inputs) :
    (loopIter st now inp).2.2 = true ↔ LOOP_DELAY ≤ now - st.lastLoopTime := by
  unfold loopIter
  split <;> simp_all

/-- Claim C9: a tick executes exactly when the monotonic clock delta
since the last tick is at least the poll interval (otherwise the state
and trace are untouched); when it executes, `lastLoopTime` is
resynchronized to the current clock, so even after a delay spanning
`k ≥ 1` intervals a single iteration runs a single tick and the next
iteration runs one only when a further full interval has elapsed since
`now` — missed ticks are never queued or replayed. -/
theorem c9_tick_gating :
    ∀ (st : State) (now : Nat) (inp : Inputs),
      ((loopIter st now inp).2.2 = true ↔ LOOP_DELAY ≤ now - st.lastLoopTime) ∧
      (LOOP_DELAY ≤ now - st.lastLoopTime →
        (loopIter st now inp).1.lastLoopTime = now) ∧
      (¬ LOOP_DELAY ≤ now - st.lastLoopTime →
        (loopIter st now inp).1 = st ∧ (loopIter st now inp).2.1 = []) ∧
      (∀ (k now' : Nat) (inp' : Inputs), 1 ≤ k →
        k * LOOP_DELAY ≤ now - st.lastLoopTime →
        (loopIter st now inp).2.2 = true ∧
        ((loopIter (loopIter st now inp).1 now' inp').2.2 = true ↔
          LOOP_DELAY ≤ now' - now)) := by
  intro st now inp
  by_cases h : LOOP_DELAY ≤ now - st.lastLoopTime
  · have hlast : (loopIter st now inp).1.lastLoopTime = now := by
      simp [loopIter, h, tick]
    refine ⟨by simp [loopIter_ran_iff, h], fun _ => hlast, fun hc => absurd h hc, ?_⟩
    intro k now' inp' hk hkd
    refine ⟨by simp [loopIter_ran_iff, h], ?_⟩
    rw [loopIter_ran_iff, hlast]
  · refine ⟨by simp [loopIter_ran_iff, h], fun hc => absurd hc h, ?_, ?_⟩
    · exact fun _ => ⟨by simp [loopIter, h], by simp [loopIter, h]⟩
    · intro k now' inp' hk hkd
      exfalso
      apply h
      calc LOOP_DELAY = 1 * LOOP_DELAY := (one_mul _).symm
        _ ≤ k * LOOP_DELAY := Nat.mul_le_mul_right _ hk
        _ ≤ now - st.lastLoopTime := hkd

/-- Witness for C9: from boot, an iteration at 5000 ms (two and a half
intervals late) runs exactly one tick, and the follow-up at 5500 ms is
gated on the time since 5000, not on the missed intervals. -/
theorem c9_tick_gating_witness :
    (loopIter initState 5000 ⟨none, none, 2000, 2000, false⟩).2.2 = true ∧
    ((loopIter (loopIter initState 5000 ⟨none, none, 2000, 2000, false⟩).1 5500
        ⟨none, none, 2000, 2000, false⟩).2.2 = true ↔
      LOOP_DELAY ≤ 5500 - 5000) := by
  exact (c9_tick_gating initState 5000 ⟨none, none, 2000, 2000, false⟩).2.2.2 2 5500
    ⟨none, none, 2000, 2000, false⟩ (by decide) (by decide)

/-- Counterexample for C10 as stated: on the control topic the payload
`" 45"` starts with a space, not a digit — it has no leading decimal
prefix — yet it does not parse to 0 and does not leave the threshold
unchanged: `atol` skips the whitespace and the threshold becomes 45. -/
theorem c10_counterexample :
    (" 45").front = ' ' ∧ Char.isDigit ' ' = false ∧
    toInt " 45" = 45 ∧ callback CONTROL_TOPIC " 45" 30 = 45 := by
  decide

/-- Claim C10 (amended): for any payload on the control topic the
parser first skips leading ASCII whitespace and one optional `+`/`-`
sign, then takes the integer value of the leading run of decimal
digits: digit runs in (0,100) with trailing non-numeric characters
(e.g. `"45abc"`, `" 45"`) still update the threshold to the leading
value, while a payload with no digits after that skipping parses to 0
and leaves the threshold unchanged. -/
theorem c10_leading_prefix_parse :
    callback CONTROL_TOPIC "45abc" 30 = 45 ∧
    callback CONTROL_TOPIC " 45" 30 = 45 ∧
    (∀ (s : String) (t : Int),
      (afterSign (s.data.dropWhile isAsciiSpace)).head?.all (fun c => !c.isDigit) = true →
      toInt s = 0 ∧ callback CONTROL_TOPIC s t = t) ∧
    (∀ (s : String) (ds rest : List Char),
      s.data = ds ++ rest → ds ≠ [] → ds.all Char.isDigit = true →
      rest.head?.all (fun c => !c.isDigit) = true →
      toInt s = (digitRunVal ds : Int)) := by
  refine ⟨by decide, by decide, ?_, ?_⟩
  · intro s t h
    have h0 : toInt s = 0 := by
      unfold toInt
      rw [digitRunVal_eq_zero _ h]
      simp
    refine ⟨h0, ?_⟩
    simp [callback, h0]
  · intro s ds rest hs hne hall hrest
    obtain ⟨d, ds', rfl⟩ : ∃ d ds', ds = d :: ds' := by
      cases ds with
      | nil => exact absurd rfl hne
      | cons d ds' => exact ⟨d, ds', rfl⟩
    simp only [List.all_cons, Bool.and_eq_true] at hall
    have hd : d.isDigit = true := hall.1
    have hdrop : ((d :: ds') ++ rest).dropWhile isAsciiSpace = (d :: ds') ++ rest := by
      simp [List.dropWhile_cons, isAsciiSpace_eq_false_of_isDigit d hd]
    have hsign : afterSign ((d :: ds') ++ rest) = (d :: ds') ++ rest := by
      unfold afterSign
      have hne2 := ne_sign_of_isDigit d hd
      simp [hne2.1, hne2.2]
    have htake : ((d :: ds') ++ rest).takeWhile Char.isDigit = d :: ds' :=
      takeWhile_digit_append (d :: ds') rest (by simp [hd, hall.2]) hrest
    have hself : (d :: ds').takeWhile Char.isDigit = d :: ds' := by
      simpa using takeWhile_digit_append (d :: ds') [] (by simp [hd, hall.2]) (by simp)
    unfold toInt
    rw [hs, hdrop, hsign]
    have hhd : ((d :: ds') ++ rest).head? ≠ some '-' := by
      simp [(ne_sign_of_isDigit d hd).1]
    rw [if_neg hhd, one_mul]
    unfold digitRunVal
    rw [htake, hself]

/-- Witness for C10 (amended) at concrete payloads. -/
theorem c10_leading_prefix_parse_witness :
    (toInt "abc" = 0 ∧ callback CONTROL_TOPIC "abc" 30 = 30) ∧
    toInt "45abc" = (digitRunVal ['4', '5'] : Int) := by
  constructor
  · exact c10_leading_prefix_parse.2.2.1 "abc" 30 (by decide)
  · exact c10_leading_prefix_parse.2.2.2 "45abc" ['4', '5'] ['a', 'b', 'c']
      (by decide) (by decide) (by decide) (by decide)

end Greenhouse
